import Mathlib

/-!
Verification of the react-bits-mcp-server request dispatch and fault-isolation
layer. The definitions below are a shallow embedding of the JavaScript source:

* the URI template matcher built at `src/tools/index.js` lines 273-279
  (`new RegExp(pattern.replace(/\x7b[^\x7d]+\x7d/g, '(.+)'))` and `regex.test(uri)`);
* the circuit breaker (modelled from the spec, its implementation file
  `src/utils/circuit-breaker.js` is not part of the sources at hand);
* the five tool handlers (`src/tools/*.js`) and the request dispatcher
  (`setupHandlers` / `handleRequest` in `src/tools/index.js`);
* the startup argument parsing (`parseArgs` / `main`).

Strings are modelled as `List Char` where matching recursion is involved,
with `String` wrappers at the boundary.
-/

namespace ReactBits

/-! ## Template matcher

`src/tools/index.js` line 274 turns a template string into a regular
expression by replacing every `\x7bplaceholder\x7d` occurrence with the wildcard
group `(.+)`; the remaining literal characters stand for themselves (the
templates registered by this server contain no regex metacharacters).
Line 275 then calls `regex.test(uri)`, i.e. an UNanchored match: the regex
may match any substring of the URI. -/

/-- One element of the compiled pattern: a literal character or a `(.+)`
wildcard group (one or more arbitrary characters). -/
inductive TElem : Type where
  | lit (c : Char)
  | wild
deriving DecidableEq, Repr

/-- Fuel-driven scanner behind `scanTmpl` (the fuel is the string length, so
it never runs out; it only makes the recursion structural). -/
def scanTmplGo : Nat → List Char → List TElem
  | 0, _ => []
  | _ + 1, [] => []
  | fuel + 1, '{' :: rest =>
    match rest.span (fun c => c ≠ '}') with
    | ([], _) => .lit '{' :: scanTmplGo fuel rest
    | (_ :: _, '}' :: rest') => .wild :: scanTmplGo fuel rest'
    | (_ :: _, _) => .lit '{' :: scanTmplGo fuel rest
  | fuel + 1, c :: rest => .lit c :: scanTmplGo fuel rest

/-- Compilation of a template string into pattern elements, following the
global replace of `/\x7b[^\x7d]+\x7d/g` by `(.+)` at `src/tools/index.js:274`:
a `\x7b` followed by one or more non-`\x7d` characters and a `\x7d` becomes a
wildcard; any other character (including an unmatched `\x7b`) stays literal. -/
def scanTmpl (s : List Char) : List TElem :=
  scanTmplGo s.length s

/-- All proper tails of a list: the suffixes obtained by dropping at least
one leading element, in order of increasing drop count. -/
def tails1 : List Char → List (List Char)
  | [] => []
  | _ :: t => t :: tails1 t

/-- All ways of splitting a list into a non-empty prefix and the matching
suffix, in order of increasing prefix length. -/
def splits1 : List Char → List (List Char × List Char)
  | [] => []
  | d :: t => ([d], t) :: (splits1 t).map (fun pq => (d :: pq.1, pq.2))

/-- Whole-string match: does the element list match exactly the given
character list?  A wildcard consumes one or more characters. -/
def matchExact : List TElem → List Char → Bool
  | [], s => s.isEmpty
  | .lit _ :: _, [] => false
  | .lit c :: rest, d :: s => c == d && matchExact rest s
  | .wild :: rest, s => (tails1 s).any (matchExact rest)

/-- Match of some prefix of the character list (the regex match may end
before the end of the string). -/
def matchPre : List TElem → List Char → Bool
  | [], _ => true
  | .lit _ :: _, [] => false
  | .lit c :: rest, d :: s => c == d && matchPre rest s
  | .wild :: rest, s => (tails1 s).any (matchPre rest)

/-- `regex.test` semantics: an unanchored match, i.e. the pattern matches
starting at some position of the string and ending anywhere at or after it. -/
def testEls (els : List TElem) (s : List Char) : Bool :=
  matchPre els s || (tails1 s).any (matchPre els)

/-- Greedy capture extraction for a match starting at the head of the string
(the JavaScript regex engine's leftmost-greedy `exec` semantics for the
patterns produced at line 274): each wildcard group records the characters it
consumed, trying longer captures first. -/
def capPre : List TElem → List Char → Option (List (List Char))
  | [], _ => some []
  | .lit _ :: _, [] => none
  | .lit c :: rest, d :: s => if c == d then capPre rest s else none
  | .wild :: rest, s =>
    (splits1 s).reverse.findSome? fun pq =>
      (capPre rest pq.2).map (fun caps => pq.1 :: caps)

/-- Leftmost match position: captured groups of the first (leftmost) match,
or `none` when the pattern matches nowhere in the string. -/
def execCaps (els : List TElem) (s : List Char) : Option (List (List Char)) :=
  (s :: tails1 s).findSome? (capPre els)

/-- Modelled from the spec: the anchored end-to-end template test that §4.2
describes ("the full URI matches end-to-end (anchored, not a substring
match)"), for comparison with `templateTest` below. -/
def anchoredTest (p uri : String) : Bool :=
  matchExact (scanTmpl p.toList) uri.toList

/-- The membership test actually performed by the dispatcher at
`src/tools/index.js:274-275` for one template `p` against a URI:
`new RegExp(p.replace(...)).test(uri)`, an unanchored test. -/
def templateTest (p uri : String) : Bool :=
  testEls (scanTmpl p.toList) uri.toList

/-! ## Circuit breaker

`src/tools/index.js` imports `circuitBreakers` from
`src/utils/circuit-breaker.js`; that file is not among the sources at hand,
so the breaker is modelled from the spec (§4.1). -/

/-- The breaker's three states (spec §4.1; `Open` is rendered `opened` since
`open` is a keyword). -/
inductive BStatus : Type where
  | closed
  | opened
  | halfOpen
deriving DecidableEq, Repr

/-- Modelled from the spec: `CircuitBreakerState` of §3 — the state record of
the single "external" breaker instance, whose implementation file
`src/utils/circuit-breaker.js` is not under the sources at hand. -/
structure BreakerState : Type where
  status : BStatus
  consecutiveFailures : Nat
  openedAt : Option Nat
  failureThreshold : Nat
  resetTimeout : Nat
deriving DecidableEq, Repr

/-- The initial breaker state: Closed with zero failures (spec §3: "reset to
Closed/0 at process start"). -/
def initialBreaker (threshold timeout : Nat) : BreakerState :=
  ⟨.closed, 0, none, threshold, timeout⟩

/-- Outcome of the wrapped zero-argument thunk, were it to be run. -/
inductive CallOutcome (α ε : Type) : Type where
  | success (a : α)
  | failure (e : ε)
deriving DecidableEq, Repr

/-- Result of one `execute` call: the thunk's value, the thunk's own error
(propagated unchanged), or rejection with `CircuitOpenError`. -/
inductive ExecResult (α ε : Type) : Type where
  | ok (a : α)
  | err (e : ε)
  | circuitOpen
deriving DecidableEq, Repr

/-- Everything one `execute` call produces: the new breaker state, the
caller-visible result, and whether the wrapped thunk was actually invoked. -/
structure ExecStep (α ε : Type) : Type where
  state : BreakerState
  result : ExecResult α ε
  invoked : Bool
deriving DecidableEq, Repr

/-- Modelled from the spec: the lazy Open-to-HalfOpen transition of §4.1 —
"If `now − openedAt ≥ resetTimeout`, transition to HalfOpen before evaluating
the next call (lazy, checked at call time)". -/
def tryHalfOpen (s : BreakerState) (now : Nat) : BreakerState :=
  match s.status, s.openedAt with
  | .opened, some t => if t + s.resetTimeout ≤ now then { s with status := .halfOpen } else s
  | _, _ => s

/-- Modelled from the spec: `execute(call)` of §4.1 (the implementation file
`src/utils/circuit-breaker.js` is not under the sources at hand).  Closed:
pass through; success resets `consecutiveFailures` to 0; failure increments
it and opens the breaker (recording `openedAt = now`) when it reaches
`failureThreshold`.  Open: reject with `CircuitOpenError` without invoking
the thunk.  HalfOpen: one trial — success closes and resets the count,
failure reopens with `openedAt = now`. -/
def execute (s : BreakerState) (now : Nat) (call : CallOutcome α ε) : ExecStep α ε :=
  let s' := tryHalfOpen s now
  match s'.status with
  | .opened => ⟨s', .circuitOpen, false⟩
  | .closed =>
    match call with
    | .success a => ⟨{ s' with consecutiveFailures := 0 }, .ok a, true⟩
    | .failure e =>
      let f := s'.consecutiveFailures + 1
      if s'.failureThreshold ≤ f then
        ⟨{ s' with status := .opened, consecutiveFailures := f, openedAt := some now },
          .err e, true⟩
      else
        ⟨{ s' with consecutiveFailures := f }, .err e, true⟩
  | .halfOpen =>
    match call with
    | .success a =>
      ⟨{ s' with status := .closed, consecutiveFailures := 0 }, .ok a, true⟩
    | .failure e =>
      ⟨{ s' with status := .opened, openedAt := some now }, .err e, true⟩

/-- Folding a sequence of timed call outcomes through the breaker,
keeping only the evolving state. -/
def applyCalls (s : BreakerState) : List (Nat × CallOutcome α ε) → BreakerState
  | [] => s
  | (t, c) :: rest => applyCalls (execute s t c).state rest

/-! ## Response envelopes, parameters and validation -/

/-- One content item of a response envelope; every handler in
`src/tools/*.js` emits items of the shape `\x7btype: 'text', text: ...\x7d`. -/
structure TextContent : Type where
  ctype : String
  text : String
deriving DecidableEq, Repr

/-- The uniform response envelope `\x7bcontent: [...]\x7d` returned by every
tool handler. -/
structure Envelope : Type where
  content : List TextContent
deriving DecidableEq, Repr

/-- The single-text-item envelope every handler branch builds. -/
def mkTextEnv (s : String) : Envelope :=
  ⟨[⟨"text", s⟩]⟩

/-- The parameters object of a tool invocation; each key the five schemas
mention may be present or absent. -/
structure ToolParams : Type where
  componentName : Option String := none
  query : Option String := none
  category : Option String := none
deriving DecidableEq, Repr

/-- The closed category enumeration of every schema in
`src/tools/index.js` lines 28, 35 and the per-tool schema files. -/
def validCategories : List String :=
  ["Animations", "Backgrounds", "Components", "TextAnimations"]

/-- An optional category value is acceptable when absent or in the closed
enumeration. -/
def categoryOk : Option String → Bool
  | none => true
  | some c => validCategories.contains c

/-- Error kinds a handler can catch: a validation failure (with the
offending field), a thrown "... not found", or the collaborator's own
failure message. -/
inductive HErr : Type where
  | validation (field : String)
  | notFound (msg : String)
  | collab (msg : String)
deriving DecidableEq, Repr

/-- The `error.message` text the catch blocks interpolate. -/
def herrMsg : HErr → String
  | .validation f => "Required: " ++ f
  | .notFound m => m
  | .collab m => m

/-- Modelled from the spec: `validateAndSanitizeParams` lives in
`src/utils/validation.js`, which is not among the sources at hand.  Per the
spec (§4.4): "validate `params` against its schema — on validation failure,
fail with `ValidationError` carrying the offending field(s); on success,
invoke the handler"; sanitization leaves already-valid parameters unchanged.
Required fields per operation follow the declared schemas in
`src/tools/index.js` (`tools`). -/
def validateAndSanitizeParams (tool : String) (p : ToolParams) : Except HErr ToolParams :=
  if (tool == "get_component" || tool == "get_component_demo"
      || tool == "get_component_metadata") && p.componentName.isNone then
    .error (.validation "componentName")
  else if tool == "search_components" && p.query.isNone then
    .error (.validation "query")
  else if !categoryOk p.category then
    .error (.validation "category")
  else
    .ok p

/-- `getComponentSchema.parse` / `getComponentDemoSchema.parse` /
`getComponentMetadataSchema.parse`: `componentName` must be a present
string. -/
def parseComponentNameSchema (p : ToolParams) : Except HErr String :=
  match p.componentName with
  | none => .error (.validation "componentName")
  | some n => .ok n

/-- `searchComponentsSchema.parse` (`src/tools/search-components.js:8-11`):
`query` must be present; `category`, when present, must be in the closed
enumeration. -/
def parseSearchSchema (p : ToolParams) : Except HErr (String × Option String) :=
  match p.query with
  | none => .error (.validation "query")
  | some q =>
    if categoryOk p.category then .ok (q, p.category)
    else .error (.validation "category")

/-- `listComponentsSchema.parse`: only the optional category enum. -/
def parseListSchema (p : ToolParams) : Except HErr (Option String) :=
  if categoryOk p.category then .ok p.category
  else .error (.validation "category")

/-! ## Collaborator data (§6, opaque reads) -/

/-- One catalog entry as returned by the listing/search collaborators. -/
structure Component : Type where
  name : String
  category : String
deriving DecidableEq, Repr

/-- A prop value in component metadata: a plain string or the
`JSON.stringify` rendering of a structured value
(`src/unnamed/part_001:43`). -/
inductive PropInfo : Type where
  | str (s : String)
  | obj (json : String)
deriving DecidableEq, Repr

/-- The text a prop value contributes to the formatted output. -/
def propInfoText : PropInfo → String
  | .str s => s
  | .obj j => j

/-- The structured metadata record returned by `getComponentMetadata`. -/
structure Metadata : Type where
  name : String
  category : String
  description : Option String := none
  dependencies : List String := []
  props : List (String × PropInfo) := []
  examples : List String := []
deriving DecidableEq, Repr

/-- Outcomes of the opaque collaborator reads of §6 for one request: each
awaited call either returns its value or fails with an error message. -/
structure Collab : Type where
  source : Except String (Option String) := .ok none
  demo : Except String (Option String) := .ok none
  metadata : Except String (Option Metadata) := .ok none
  listC : Except String (List Component) := .ok []
  searchC : Except String (List Component) := .ok []

/-! ## Output formatting (the string building inside the handlers) -/

/-- Strict lexicographic comparison on code points, standing in for the
default JavaScript `Array.prototype.sort` comparator on names. -/
def strLtB : List Char → List Char → Bool
  | [], [] => false
  | [], _ :: _ => true
  | _ :: _, [] => false
  | a :: as, b :: bs =>
    if a.toNat < b.toNat then true
    else if b.toNat < a.toNat then false
    else strLtB as bs

/-- Stable insertion of a name into an ascending list. -/
def insertSorted (x : String) : List String → List String
  | [] => [x]
  | y :: ys => if strLtB y.toList x.toList then y :: insertSorted x ys else x :: y :: ys

/-- `componentNames.sort()` as used in the list/search handlers. -/
def sortNames (l : List String) : List String :=
  l.foldr insertSorted []

/-- One step of the `reduce` that groups components by category: append to
an existing key's bucket, else append a new key (object key insertion
order). -/
def addToGroup (acc : List (String × List String)) (c : Component) :
    List (String × List String) :=
  if acc.any (fun kv => kv.1 == c.category) then
    acc.map (fun kv => if kv.1 == c.category then (kv.1, kv.2 ++ [c.name]) else kv)
  else
    acc ++ [(c.category, [c.name])]

/-- `results.reduce(...)` from the list/search handlers. -/
def groupByCategory (cs : List Component) : List (String × List String) :=
  cs.foldl addToGroup []

/-- The `## category` sections with their sorted `- name` lines. -/
def formatGroups (groups : List (String × List String)) : String :=
  groups.foldl
    (fun out kv =>
      out ++ "## " ++ kv.1 ++ "\n" ++
        (sortNames kv.2).foldl (fun o n => o ++ "- " ++ n ++ "\n") "" ++ "\n")
    ""

/-- The success output of `handleSearchComponents`
(`src/tools/search-components.js:47-55`). -/
def formatSearchOutput (query : String) (rs : List Component) : String :=
  "Search Results for \"" ++ query ++ "\":\n\n" ++ formatGroups (groupByCategory rs) ++
    "\nFound " ++ toString rs.length ++ " matching component" ++
    (if rs.length == 1 then "" else "s")

/-- The success output of `handleListComponents`. -/
def formatListOutput (cs : List Component) : String :=
  "Available React Bits Components:\n\n" ++ formatGroups (groupByCategory cs) ++
    "\nTotal: " ++ toString cs.length ++ " components"

/-- The success output of `handleGetComponentMetadata`
(`src/unnamed/part_001:28-53`); empty description strings are skipped by the
JavaScript truthiness test. -/
def formatMetadata (m : Metadata) : String :=
  let o1 := "# " ++ m.name ++ " Component Metadata\n\n" ++
    "**Category:** " ++ m.category ++ "\n\n"
  let o2 := match m.description with
    | some d => if d == "" then o1 else o1 ++ "**Description:** " ++ d ++ "\n\n"
    | none => o1
  let o3 := if m.dependencies.isEmpty then o2 else
    o2 ++ "**Dependencies:**\n" ++
      m.dependencies.foldl (fun o d => o ++ "- " ++ d ++ "\n") "" ++ "\n"
  let o4 := if m.props.isEmpty then o3 else
    o3 ++ "**Props:**\n" ++
      m.props.foldl (fun o pv => o ++ "- " ++ pv.1 ++ ": " ++ propInfoText pv.2 ++ "\n") ""
      ++ "\n"
  if m.examples.isEmpty then o4 else
    o4 ++ "**Examples:**\n" ++
      (m.examples.foldl
        (fun acc e => (acc.1 ++ toString (acc.2 + 1) ++ ". " ++ e ++ "\n", acc.2 + 1))
        (("" : String), (0 : Nat))).1 ++ "\n"

/-! ## The five tool handlers (`src/tools/*.js`, `src/unnamed/part_001`)

Each handler validates, calls its collaborator, and catches EVERY failure
into a textual envelope.  `HandlerRun` records, besides the envelope, whether
the collaborator call was reached, which error (if any) the catch block
received, and the `logInfo`/`logError` entries the handler emitted. -/

/-- Log entries produced along a request (`logInfo` / `logError`). -/
inductive LogEntry : Type where
  | info (msg : String)
  | error (msg : String)
deriving DecidableEq, Repr

/-- What one handler invocation produces. -/
structure HandlerRun : Type where
  env : Envelope
  reachedCollab : Bool
  caught : Option HErr
  log : List LogEntry
deriving DecidableEq, Repr

/-- `handleGetComponent` (the third file concatenated in
`src/tools/get-component-demo.js`, lines 142-176).  A validation failure
throws before the first `logInfo`; the not-found throw and a collaborator
failure are caught after it; the catch block always calls
`logError('Error in handleGetComponent', error)`. -/
def handleGetComponent (co : Collab) (p : ToolParams) : HandlerRun :=
  match validateAndSanitizeParams "get_component" p with
  | .error e =>
    ⟨mkTextEnv ("Error retrieving component: " ++ herrMsg e), false, some e,
      [.error "Error in handleGetComponent"]⟩
  | .ok p' =>
    match parseComponentNameSchema p' with
    | .error e =>
      ⟨mkTextEnv ("Error retrieving component: " ++ herrMsg e), false, some e,
        [.error "Error in handleGetComponent"]⟩
    | .ok name =>
      match co.source with
      | .error m =>
        ⟨mkTextEnv ("Error retrieving component: " ++ m), true, some (.collab m),
          [.info ("Getting component source for: " ++ name),
           .error "Error in handleGetComponent"]⟩
      | .ok none =>
        let e := HErr.notFound ("Component '" ++ name ++ "' not found")
        ⟨mkTextEnv ("Error retrieving component: " ++ herrMsg e), true, some e,
          [.info ("Getting component source for: " ++ name),
           .error "Error in handleGetComponent"]⟩
      | .ok (some src) =>
        ⟨mkTextEnv src, true, none,
          [.info ("Getting component source for: " ++ name),
           .info ("Successfully retrieved component source for: " ++ name)]⟩

/-- `handleGetComponentDemo` (`src/tools/get-component-demo.js:16-50`). -/
def handleGetComponentDemo (co : Collab) (p : ToolParams) : HandlerRun :=
  match validateAndSanitizeParams "get_component_demo" p with
  | .error e =>
    ⟨mkTextEnv ("Error retrieving component demo: " ++ herrMsg e), false, some e,
      [.error "Error in handleGetComponentDemo"]⟩
  | .ok p' =>
    match parseComponentNameSchema p' with
    | .error e =>
      ⟨mkTextEnv ("Error retrieving component demo: " ++ herrMsg e), false, some e,
        [.error "Error in handleGetComponentDemo"]⟩
    | .ok name =>
      match co.demo with
      | .error m =>
        ⟨mkTextEnv ("Error retrieving component demo: " ++ m), true, some (.collab m),
          [.info ("Getting component demo for: " ++ name),
           .error "Error in handleGetComponentDemo"]⟩
      | .ok none =>
        let e := HErr.notFound ("Demo for component '" ++ name ++ "' not found")
        ⟨mkTextEnv ("Error retrieving component demo: " ++ herrMsg e), true, some e,
          [.info ("Getting component demo for: " ++ name),
           .error "Error in handleGetComponentDemo"]⟩
      | .ok (some code) =>
        ⟨mkTextEnv code, true, none,
          [.info ("Getting component demo for: " ++ name),
           .info ("Successfully retrieved component demo for: " ++ name)]⟩

/-- `handleGetComponentMetadata` (`src/unnamed/part_001:16-77`). -/
def handleGetComponentMetadata (co : Collab) (p : ToolParams) : HandlerRun :=
  match validateAndSanitizeParams "get_component_metadata" p with
  | .error e =>
    ⟨mkTextEnv ("Error retrieving component metadata: " ++ herrMsg e), false, some e,
      [.error "Error in handleGetComponentMetadata"]⟩
  | .ok p' =>
    match parseComponentNameSchema p' with
    | .error e =>
      ⟨mkTextEnv ("Error retrieving component metadata: " ++ herrMsg e), false, some e,
        [.error "Error in handleGetComponentMetadata"]⟩
    | .ok name =>
      match co.metadata with
      | .error m =>
        ⟨mkTextEnv ("Error retrieving component metadata: " ++ m), true, some (.collab m),
          [.info ("Getting component metadata for: " ++ name),
           .error "Error in handleGetComponentMetadata"]⟩
      | .ok none =>
        let e := HErr.notFound ("Metadata for component '" ++ name ++ "' not found")
        ⟨mkTextEnv ("Error retrieving component metadata: " ++ herrMsg e), true, some e,
          [.info ("Getting component metadata for: " ++ name),
           .error "Error in handleGetComponentMetadata"]⟩
      | .ok (some m) =>
        ⟨mkTextEnv (formatMetadata m), true, none,
          [.info ("Getting component metadata for: " ++ name),
           .info ("Successfully retrieved component metadata for: " ++ name)]⟩

/-- `handleListComponents` (the second file concatenated in
`src/tools/get-component-demo.js`, lines 65-127).  The empty-catalog branch
returns after only the entry `logInfo`. -/
def handleListComponents (co : Collab) (p : ToolParams) : HandlerRun :=
  match validateAndSanitizeParams "list_components" p with
  | .error e =>
    ⟨mkTextEnv ("Error listing components: " ++ herrMsg e), false, some e,
      [.error "Error in handleListComponents"]⟩
  | .ok p' =>
    match parseListSchema p' with
    | .error e =>
      ⟨mkTextEnv ("Error listing components: " ++ herrMsg e), false, some e,
        [.error "Error in handleListComponents"]⟩
    | .ok cat =>
      let entry := LogEntry.info (match cat with
        | some c => "Listing components for category: " ++ c
        | none => "Listing components")
      match co.listC with
      | .error m =>
        ⟨mkTextEnv ("Error listing components: " ++ m), true, some (.collab m),
          [entry, .error "Error in handleListComponents"]⟩
      | .ok comps =>
        if comps.isEmpty then
          ⟨mkTextEnv (match cat with
            | some c => "No components found in category '" ++ c ++ "'"
            | none => "No components found"), true, none, [entry]⟩
        else
          ⟨mkTextEnv (formatListOutput comps), true, none,
            [entry,
             .info ("Successfully listed " ++ toString comps.length ++ " components")]⟩

/-- `handleSearchComponents` (`src/tools/search-components.js:17-79`).  The
no-results branch returns after only the entry `logInfo`. -/
def handleSearchComponents (co : Collab) (p : ToolParams) : HandlerRun :=
  match validateAndSanitizeParams "search_components" p with
  | .error e =>
    ⟨mkTextEnv ("Error searching components: " ++ herrMsg e), false, some e,
      [.error "Error in handleSearchComponents"]⟩
  | .ok p' =>
    match parseSearchSchema p' with
    | .error e =>
      ⟨mkTextEnv ("Error searching components: " ++ herrMsg e), false, some e,
        [.error "Error in handleSearchComponents"]⟩
    | .ok qc =>
      let entry := LogEntry.info ("Searching components with query: \"" ++ qc.1 ++ "\"" ++
        (match qc.2 with
          | some c => " in category: " ++ c
          | none => ""))
      match co.searchC with
      | .error m =>
        ⟨mkTextEnv ("Error searching components: " ++ m), true, some (.collab m),
          [entry, .error "Error in handleSearchComponents"]⟩
      | .ok rs =>
        if rs.isEmpty then
          ⟨mkTextEnv (match qc.2 with
            | some c =>
              "No components found matching \"" ++ qc.1 ++ "\" in category '" ++ c ++ "'"
            | none => "No components found matching \"" ++ qc.1 ++ "\""), true, none,
            [entry]⟩
        else
          ⟨mkTextEnv (formatSearchOutput qc.1 rs), true, none,
            [entry,
             .info ("Search completed: found " ++ toString rs.length ++
               " components matching \"" ++ qc.1 ++ "\"")]⟩

/-! ## Registry and dispatcher (`src/tools/index.js`) -/

/-- The `toolHandlers[name]` lookup followed by the handler call. -/
def runToolHandler (name : String) (co : Collab) (p : ToolParams) : Option HandlerRun :=
  if name == "get_component" then some (handleGetComponent co p)
  else if name == "get_component_demo" then some (handleGetComponentDemo co p)
  else if name == "list_components" then some (handleListComponents co p)
  else if name == "get_component_metadata" then some (handleGetComponentMetadata co p)
  else if name == "search_components" then some (handleSearchComponents co p)
  else none

/-- What processing one inbound request produces: the response or the
re-raised protocol error, the breaker state afterwards, whether the breaker
participated, whether the tool handler itself ran, and the log. -/
structure DispatchRun : Type where
  response : Except String Envelope
  breaker : BreakerState
  usedBreaker : Bool
  handlerRan : Bool
  log : List LogEntry

/-- The CallTool request handler (`src/tools/index.js:299-313`) composed
with the `handleRequest` wrapper (lines 136-147): reject a missing or empty
tool name, reject an unknown name, otherwise run the handler through
`circuitBreakers.external.execute`.  Handlers catch their own errors, so the
thunk's outcome is always a success carrying the envelope; a thrown error
(missing name, unknown tool, `CircuitOpenError`) is logged and re-raised. -/
def dispatchCallTool (name : Option String) (params : Option ToolParams)
    (co : Collab) (b : BreakerState) (now : Nat) : DispatchRun :=
  let entry := LogEntry.info "Handling call_tool request"
  let failLog := [entry, LogEntry.error "Error in call_tool"]
  match name with
  | none => ⟨.error "Tool name is required", b, false, false, failLog⟩
  | some n =>
    if n == "" then ⟨.error "Tool name is required", b, false, false, failLog⟩
    else
      match runToolHandler n co (params.getD {}) with
      | none => ⟨.error ("Tool not found: " ++ n), b, false, false, failLog⟩
      | some hr =>
        let step : ExecStep Envelope String := execute b now (.success hr.env)
        ⟨match step.result with
          | .ok env => .ok env
          | .circuitOpen => .error "CircuitOpenError"
          | .err m => .error m,
         step.state, true, step.invoked,
         match step.result with
          | .ok _ => [entry, .info "call_tool completed successfully"]
          | _ => failLog⟩

/-- The exact-key lookup `resourceHandlers[uri]`
(`src/tools/index.js:267`). -/
def lookupLit (lits : List (String × α)) (uri : String) : Option α :=
  lits.findSome? fun kv => if kv.1 == uri then some kv.2 else none

/-- The `Object.entries(resourceTemplateHandlers)` scan
(`src/tools/index.js:273-279`): first template whose compiled regex tests
true against the URI, in registration order. -/
def firstTemplateMatch {α : Type} (tmpls : List (String × (String → α))) (uri : String) :
    Option (String → α) :=
  tmpls.findSome? fun ph => if templateTest ph.1 uri then some ph.2 else none

/-- The ReadResource request handler (`src/tools/index.js:263-282`): exact
lookup among static resources first, then the template scan, else a thrown
"Resource not found".  The registered tables live in `src/resources.js`
(not among the sources at hand), so they are abstract parameters; a template
handler receives the full URI, as at line 276. -/
def readResource {α : Type} (lits : List (String × α))
    (tmpls : List (String × (String → α))) (uri : String) : Except String α :=
  match lookupLit lits uri with
  | some r => .ok r
  | none =>
    match firstTemplateMatch tmpls uri with
    | some h => .ok (h uri)
    | none => .error ("Resource not found: " ++ uri)

/-- The GetPrompt request handler (`src/tools/index.js:288-297`): name lookup
in `promptHandlers` (whose table lives in `src/prompts.js`, not among the
sources at hand, hence abstract), a thrown "Prompt not found" otherwise. -/
def getPrompt {α : Type} (handlers : List (String × (Option String → α))) (name : String)
    (args : Option String) : Except String α :=
  match lookupLit handlers name with
  | some h => .ok (h args)
  | none => .error ("Prompt not found: " ++ name)

/-- `parseArgs` (`src/unnamed/part_000:67-77`), credential part: the value
after a `--github-api-key`/`-g` flag when truthy, else the environment
variable when truthy, else nothing.  Always succeeds. -/
def parseArgs (args : List String) (envToken : Option String) : Option String :=
  let fromFlag :=
    match args.findIdx? (fun a => a == "--github-api-key" || a == "-g") with
    | some i =>
      match args[i + 1]? with
      | some v => if v == "" then none else some v
      | none => none
    | none => none
  match fromFlag with
  | some v => some v
  | none =>
    match envToken with
    | some e => if e == "" then none else some e
    | none => none

/-- One inbound request together with the behaviour of the opaque
collaborators it will consult. -/
inductive Request : Type where
  | callTool (name : Option String) (params : Option ToolParams) (co : Collab)
      (b : BreakerState) (now : Nat)
  | readRes (lits : List (String × Envelope))
      (tmpls : List (String × (String → Envelope))) (uri : String)
  | getPr (handlers : List (String × (Option String → Envelope)))
      (name : String) (args : Option String)

/-- The response the running server produces for a request.  `main`
(`src/unnamed/part_000:81-255`) threads the parsed credential into nothing
but an informational log line; `setupHandlers(server)` at line 244 never
receives it, so the response computation does not mention it. -/
def serverRespond (_cred : Option String) : Request → Except String Envelope
  | .callTool name params co b now => (dispatchCallTool name params co b now).response
  | .readRes lits tmpls uri => readResource lits tmpls uri
  | .getPr handlers name args => getPrompt handlers name args

/-- The startup log of `main`: the credential contributes only the
"provided (not used)" note (`src/unnamed/part_000:86-88`). -/
def startupLog (cred : Option String) : List LogEntry :=
  [.info "Starting React Bits MCP Server..."] ++
    (match cred with
     | some _ => [.info "GitHub API key provided (not used for file-based operations)"]
     | none => []) ++
    [.info "Transport initialized: stdio", .info "Server started successfully"]

/-- A whole run: parse the credential from the command line and environment,
then answer the request. -/
def runServer (args : List String) (envToken : Option String) (req : Request) :
    Except String Envelope :=
  serverRespond (parseArgs args envToken) req

/-! ## Theorems -/

/-- Proper tails are exactly the suffixes cut off by a non-empty prefix. -/
theorem mem_tails1 (s t : List Char) : t ∈ tails1 s ↔ ∃ pre, pre ≠ [] ∧ s = pre ++ t := by
  induction s generalizing t with
  | nil =>
    simp only [tails1, List.not_mem_nil, false_iff]
    rintro ⟨pre, hpre, h⟩
    exact hpre (List.append_eq_nil.mp h.symm).1
  | cons d s' ih =>
    simp only [tails1, List.mem_cons]
    constructor
    · rintro (rfl | ht)
      · exact ⟨[d], by simp, rfl⟩
      · obtain ⟨pre, hpre, rfl⟩ := (ih t).mp ht
        exact ⟨d :: pre, by simp, rfl⟩
    · rintro ⟨pre, hpre, heq⟩
      cases pre with
      | nil => exact absurd rfl hpre
      | cons d' pre' =>
        injection heq with h1 h2
        cases pre' with
        | nil => exact Or.inl h2.symm
        | cons x xs => exact Or.inr ((ih t).mpr ⟨x :: xs, by simp, h2⟩)

/-- A prefix match is a whole-string match of some prefix. -/
theorem matchPre_iff (els : List TElem) (s : List Char) :
    matchPre els s = true ↔
      ∃ mid post, s = mid ++ post ∧ matchExact els mid = true := by
  induction els generalizing s with
  | nil =>
    simp only [matchPre, true_iff]
    exact ⟨[], s, rfl, rfl⟩
  | cons e rest ih =>
    cases e with
    | lit c =>
      cases s with
      | nil =>
        simp only [matchPre, Bool.false_eq_true, false_iff]
        rintro ⟨mid, post, heq, hm⟩
        cases mid with
        | nil => simp [matchExact] at hm
        | cons x xs => simp at heq
      | cons d s' =>
        simp only [matchPre, Bool.and_eq_true, beq_iff_eq]
        constructor
        · rintro ⟨rfl, hm⟩
          obtain ⟨mid, post, rfl, hm'⟩ := (ih s').mp hm
          refine ⟨c :: mid, post, rfl, ?_⟩
          simp [matchExact, hm']
        · rintro ⟨mid, post, heq, hm⟩
          cases mid with
          | nil => simp [matchExact] at hm
          | cons x xs =>
            injection heq with h1 h2
            subst h1
            simp only [matchExact, Bool.and_eq_true, beq_iff_eq] at hm
            exact ⟨hm.1, (ih s').mpr ⟨xs, post, h2, hm.2⟩⟩
    | wild =>
      simp only [matchPre, List.any_eq_true]
      constructor
      · rintro ⟨t, ht, hm⟩
        obtain ⟨pre, hpre, rfl⟩ := (mem_tails1 s t).mp ht
        obtain ⟨mid, post, rfl, hm'⟩ := (ih t).mp hm
        refine ⟨pre ++ mid, post, by simp, ?_⟩
        simp only [matchExact, List.any_eq_true]
        exact ⟨mid, (mem_tails1 _ _).mpr ⟨pre, hpre, rfl⟩, hm'⟩
      · rintro ⟨mid, post, seq, hm⟩
        simp only [matchExact, List.any_eq_true] at hm
        obtain ⟨t', ht', hm'⟩ := hm
        obtain ⟨pre, hpre, midEq⟩ := (mem_tails1 mid t').mp ht'
        refine ⟨t' ++ post, ?_, (ih _).mpr ⟨t', post, rfl, hm'⟩⟩
        refine (mem_tails1 _ _).mpr ⟨pre, hpre, ?_⟩
        simp [seq, midEq]

/-- The unanchored test succeeds exactly when the pattern prefix-matches at
some position of the string. -/
theorem testEls_iff (els : List TElem) (s : List Char) :
    testEls els s = true ↔ ∃ pre t, s = pre ++ t ∧ matchPre els t = true := by
  simp only [testEls, Bool.or_eq_true, List.any_eq_true]
  constructor
  · rintro (h | ⟨t, ht, h⟩)
    · exact ⟨[], s, rfl, h⟩
    · obtain ⟨pre, hpre, rfl⟩ := (mem_tails1 s t).mp ht
      exact ⟨pre, t, rfl, h⟩
  · rintro ⟨pre, t, rfl, h⟩
    cases pre with
    | nil => exact Or.inl h
    | cons d pre' =>
      exact Or.inr ⟨t, (mem_tails1 _ _).mpr ⟨d :: pre', by simp, rfl⟩, h⟩

/-- C3 counterexample: the claim says matching is anchored end-to-end, so a
URI of which the template pattern matches only a proper substring must not
match; but for the registered template `resource:component/\x7bname\x7d` the
URI `Xresource:component/AnimatedList` — where the pattern matches only the
proper substring after the leading `X` — passes the dispatcher's test
(`src/tools/index.js:274-275` builds the regex without anchors and uses
`test`, a substring search). -/
theorem c3_counterexample :
    templateTest "resource:component/{name}" "Xresource:component/AnimatedList" = true ∧
      anchoredTest "resource:component/{name}" "Xresource:component/AnimatedList" = false :=
  ⟨by decide, by decide⟩

/-- C3 (amended): template matching is NOT anchored — the read-resource
dispatch selects a template's handler exactly when the pattern obtained by
replacing each placeholder with a wildcard capture and keeping literal
segments as exact text matches SOME substring of the URI; extra leading or
trailing characters around a matching substring are accepted. -/
theorem c3_substring_matching (p uri : String) :
    templateTest p uri = true ↔
      ∃ pre mid post : List Char,
        uri.toList = pre ++ mid ++ post ∧ matchExact (scanTmpl p.toList) mid = true := by
  unfold templateTest
  rw [testEls_iff]
  constructor
  · rintro ⟨pre, t, heq, h⟩
    obtain ⟨mid, post, rfl, hm⟩ := (matchPre_iff _ t).mp h
    exact ⟨pre, mid, post, by simpa [String.toList, List.append_assoc] using heq, hm⟩
  · rintro ⟨pre, mid, post, heq, hm⟩
    exact ⟨pre, mid ++ post, by simpa [String.toList, List.append_assoc] using heq,
      (matchPre_iff _ _).mpr ⟨mid, post, rfl, hm⟩⟩

/-- Splitting a call sequence splits the breaker fold. -/
theorem applyCalls_append {α ε : Type} (l1 l2 : List (Nat × CallOutcome α ε)) :
    ∀ s, applyCalls s (l1 ++ l2) = applyCalls (applyCalls s l1) l2 := by
  induction l1 with
  | nil => intro s; rfl
  | cons x l1 ih =>
    intro s
    cases x with
    | mk t c =>
      simp only [List.cons_append, applyCalls]
      exact ih _

/-- Below the threshold, consecutive failures keep the breaker Closed and
just accumulate in the counter. -/
theorem applyFailures_closed {α ε : Type} (e : ε) (T R : Nat) (oa : Option Nat)
    (ts : List Nat) :
    ∀ k, k + ts.length < T →
      applyCalls (⟨.closed, k, oa, T, R⟩ : BreakerState)
          (ts.map fun t => (t, (CallOutcome.failure e : CallOutcome α ε))) =
        ⟨.closed, k + ts.length, oa, T, R⟩ := by
  induction ts with
  | nil =>
    intro k _
    simp [applyCalls]
  | cons t ts ih =>
    intro k h
    simp only [List.length_cons] at h
    simp only [List.map_cons, applyCalls]
    have hT : ¬ T ≤ k + 1 := by omega
    have hstep : (execute (⟨.closed, k, oa, T, R⟩ : BreakerState) t
        (CallOutcome.failure e : CallOutcome α ε)).state = ⟨.closed, k + 1, oa, T, R⟩ := by
      simp [execute, tryHalfOpen, hT]
    rw [hstep]
    have h2 : k + 1 + ts.length < T := by omega
    rw [ih (k + 1) h2]
    have h3 : k + 1 + ts.length = k + (t :: ts).length := by
      simp only [List.length_cons]
      omega
    rw [h3]

/-- C1: from the Closed initial state, `failureThreshold` consecutive
failing calls leave the breaker Open (while every proper prefix of that run
leaves it Closed), and the very next call within `resetTimeout` of the
opening is rejected with `CircuitOpenError` without the wrapped thunk being
invoked. -/
theorem c1_threshold {α ε : Type} (T R : Nat) (ts : List Nat) (tN : Nat)
    (hlen : ts.length + 1 = T) (e : ε) (t' : Nat) (ht' : t' < tN + R)
    (call : CallOutcome α ε) :
    (applyCalls (initialBreaker T R)
        (ts.map fun t => (t, (CallOutcome.failure e : CallOutcome α ε)))).status =
      BStatus.closed
    ∧ applyCalls (initialBreaker T R)
        ((ts ++ [tN]).map fun t => (t, (CallOutcome.failure e : CallOutcome α ε))) =
      ⟨.opened, T, some tN, T, R⟩
    ∧ (execute (applyCalls (initialBreaker T R)
        ((ts ++ [tN]).map fun t => (t, (CallOutcome.failure e : CallOutcome α ε))))
        t' call).result = ExecResult.circuitOpen
    ∧ (execute (applyCalls (initialBreaker T R)
        ((ts ++ [tN]).map fun t => (t, (CallOutcome.failure e : CallOutcome α ε))))
        t' call).invoked = false := by
  have hlen0 : (0 : Nat) + ts.length < T := by omega
  have h1 := applyFailures_closed (α := α) e T R none ts 0 hlen0
  have hinit : initialBreaker T R = (⟨.closed, 0, none, T, R⟩ : BreakerState) := rfl
  have hmap : (ts ++ [tN]).map (fun t => (t, (CallOutcome.failure e : CallOutcome α ε))) =
      ts.map (fun t => (t, (CallOutcome.failure e : CallOutcome α ε))) ++
        [(tN, CallOutcome.failure e)] := by
    simp
  have hge : T ≤ ts.length + 1 := by omega
  have hsecond : applyCalls (initialBreaker T R)
      ((ts ++ [tN]).map fun t => (t, (CallOutcome.failure e : CallOutcome α ε))) =
      (⟨.opened, T, some tN, T, R⟩ : BreakerState) := by
    rw [hmap, applyCalls_append, hinit, h1]
    simp only [applyCalls]
    simp [execute, tryHalfOpen, hge]
    omega
  have hrej : ¬ (tN + R ≤ t') := by omega
  refine ⟨?_, hsecond, ?_, ?_⟩
  · rw [hinit, h1]
  · rw [hsecond]
    simp [execute, tryHalfOpen, hrej]
  · rw [hsecond]
    simp [execute, tryHalfOpen, hrej]

/-- Witness for `c1_threshold` at threshold 2 with failures at times 0 and
1 and a rejected call at time 3 (reset timeout 5). -/
theorem c1_threshold_witness :
    (applyCalls (initialBreaker 2 5)
        ([0].map fun t => (t, (CallOutcome.failure () : CallOutcome Unit Unit)))).status =
      BStatus.closed
    ∧ applyCalls (initialBreaker 2 5)
        (([0] ++ [1]).map fun t => (t, (CallOutcome.failure () : CallOutcome Unit Unit))) =
      ⟨.opened, 2, some 1, 2, 5⟩
    ∧ (execute (applyCalls (initialBreaker 2 5)
        (([0] ++ [1]).map fun t => (t, (CallOutcome.failure () : CallOutcome Unit Unit))))
        3 (CallOutcome.success () : CallOutcome Unit Unit)).result = ExecResult.circuitOpen
    ∧ (execute (applyCalls (initialBreaker 2 5)
        (([0] ++ [1]).map fun t => (t, (CallOutcome.failure () : CallOutcome Unit Unit))))
        3 (CallOutcome.success () : CallOutcome Unit Unit)).invoked = false :=
  c1_threshold 2 5 [0] 1 (by decide) () 3 (by decide) (CallOutcome.success ())

/-- C2: once Open with `resetTimeout` elapsed since `openedAt`, the next
`execute` actually invokes the wrapped thunk (the HalfOpen trial); a
successful trial closes the breaker and resets `consecutiveFailures` to 0,
a failing trial reopens it with `openedAt` set to the current time, the
thunk's own outcome being returned in both cases. -/
theorem c2_recovery {α ε : Type} (s : BreakerState) (t0 now : Nat)
    (hs : s.status = BStatus.opened) (hoa : s.openedAt = some t0)
    (helapsed : t0 + s.resetTimeout ≤ now) (call : CallOutcome α ε) :
    (execute s now call).invoked = true
    ∧ (∀ a, call = CallOutcome.success a →
        (execute s now call).state.status = BStatus.closed
        ∧ (execute s now call).state.consecutiveFailures = 0
        ∧ (execute s now call).result = ExecResult.ok a)
    ∧ (∀ e, call = CallOutcome.failure e →
        (execute s now call).state.status = BStatus.opened
        ∧ (execute s now call).state.openedAt = some now
        ∧ (execute s now call).result = ExecResult.err e) := by
  obtain ⟨st, cf, oa, ft, rt⟩ := s
  simp only at hs hoa helapsed
  subst hs
  subst hoa
  have hho : tryHalfOpen (⟨.opened, cf, some t0, ft, rt⟩ : BreakerState) now =
      (⟨.halfOpen, cf, some t0, ft, rt⟩ : BreakerState) := by
    simp [tryHalfOpen, helapsed]
  cases call with
  | success a =>
    refine ⟨?_, ?_, ?_⟩
    · simp [execute, hho]
    · rintro b hb
      injection hb with hab
      subst hab
      refine ⟨?_, ?_, ?_⟩ <;> simp [execute, hho]
    · rintro e he
      exact absurd he (by simp)
  | failure e =>
    refine ⟨?_, ?_, ?_⟩
    · simp [execute, hho]
    · rintro a ha
      exact absurd ha (by simp)
    · rintro e' he
      injection he with hee
      subst hee
      refine ⟨?_, ?_, ?_⟩ <;> simp [execute, hho]

/-- Witness for `c2_recovery`: breaker opened at time 0 with reset timeout
5, successful trial at time 7. -/
theorem c2_recovery_witness :
    (execute (⟨BStatus.opened, 3, some 0, 3, 5⟩ : BreakerState) 7
        (CallOutcome.success 1 : CallOutcome Nat Unit)).invoked = true
    ∧ (execute (⟨BStatus.opened, 3, some 0, 3, 5⟩ : BreakerState) 7
        (CallOutcome.success 1 : CallOutcome Nat Unit)).state.status = BStatus.closed
    ∧ (execute (⟨BStatus.opened, 3, some 0, 3, 5⟩ : BreakerState) 7
        (CallOutcome.success 1 : CallOutcome Nat Unit)).state.consecutiveFailures = 0 :=
  have h := c2_recovery (⟨BStatus.opened, 3, some 0, 3, 5⟩ : BreakerState) 0 7 rfl rfl
    (by decide) (CallOutcome.success 1 : CallOutcome Nat Unit)
  ⟨h.1, (h.2.1 1 rfl).1, (h.2.1 1 rfl).2.1⟩

/-- C4: with the template `resource:component/\x7bname\x7d` registered, the URI
`resource:component/AnimatedList` matches it and the (leftmost-greedy)
capture is `AnimatedList`, while `resource:component/` — which would need an
empty capture for the one-or-more wildcard — does not match. -/
theorem c4_concrete_template_match :
    templateTest "resource:component/{name}" "resource:component/AnimatedList" = true ∧
      execCaps (scanTmpl "resource:component/{name}".toList)
          "resource:component/AnimatedList".toList = some ["AnimatedList".toList] ∧
      templateTest "resource:component/{name}" "resource:component/" = false :=
  ⟨by decide, by decide, by decide⟩

/-- C5: the read-resource dispatch checks the literal registrations first —
when a literal registration exists its handler's result is returned no
matter what the template table holds; only with no literal registration is
the template scan consulted (first match in registration order); and the
request fails with the "Resource not found" error exactly when neither a
literal registration nor any template matches. -/
theorem c5_lookup_order {α : Type} (lits : List (String × α))
    (tmpls : List (String × (String → α))) (uri : String) :
    (∀ r, lookupLit lits uri = some r →
      ∀ tmpls2 : List (String × (String → α)), readResource lits tmpls2 uri = .ok r)
    ∧ (lookupLit lits uri = none →
        ∀ h, firstTemplateMatch tmpls uri = some h →
          readResource lits tmpls uri = .ok (h uri))
    ∧ (readResource lits tmpls uri = .error ("Resource not found: " ++ uri) ↔
        lookupLit lits uri = none ∧ firstTemplateMatch tmpls uri = none) := by
  refine ⟨?_, ?_, ?_⟩
  · intro r hr tmpls2
    simp [readResource, hr]
  · intro hn h hm
    simp [readResource, hn, hm]
  · constructor
    · intro h
      cases hl : lookupLit lits uri with
      | some r => simp [readResource, hl] at h
      | none =>
        cases hm : firstTemplateMatch tmpls uri with
        | some f => simp [readResource, hl, hm] at h
        | none => exact ⟨rfl, rfl⟩
    · rintro ⟨h1, h2⟩
      simp [readResource, h1, h2]

/-- Witness for `c5_lookup_order`: a literal hit, a template hit, and an
unmatched URI. -/
theorem c5_lookup_order_witness :
    readResource [("resource:get_components", "L")]
        [("resource:component/{name}", fun u => u)] "resource:get_components" =
      Except.ok "L"
    ∧ readResource ([] : List (String × String))
        [("resource:component/{name}", fun u => u)] "resource:component/AnimatedList" =
      Except.ok "resource:component/AnimatedList"
    ∧ readResource [("resource:get_components", "L")]
        ([] : List (String × (String → String))) "nope" =
      Except.error "Resource not found: nope" :=
  ⟨(c5_lookup_order [("resource:get_components", "L")]
      [("resource:component/{name}", fun u => u)] "resource:get_components").1 "L" rfl _,
   (c5_lookup_order [] [("resource:component/{name}", fun u => u)]
      "resource:component/AnimatedList").2.1 rfl _ rfl,
   (c5_lookup_order [("resource:get_components", "L")] [] "nope").2.2.mpr ⟨rfl, rfl⟩⟩

/-- C6: invoking an operation without a required field of its declared
schema produces a `ValidationError` — the caught error is a validation
failure naming the missing field, the error is what the returned envelope
renders, and the collaborator (the operation's actual logic) is never
reached, whatever it would have returned. -/
theorem c6_validation_rejects (co : Collab) (cn q : Option String)
    (cat cat' : Option String) :
    ((handleSearchComponents co ⟨cn, none, cat⟩).reachedCollab = false
      ∧ (handleSearchComponents co ⟨cn, none, cat⟩).caught =
          some (HErr.validation "query")
      ∧ (handleSearchComponents co ⟨cn, none, cat⟩).env =
          mkTextEnv "Error searching components: Required: query")
    ∧ ((handleGetComponent co ⟨none, q, cat'⟩).reachedCollab = false
      ∧ (handleGetComponent co ⟨none, q, cat'⟩).caught =
          some (HErr.validation "componentName"))
    ∧ ((handleGetComponentDemo co ⟨none, q, cat'⟩).reachedCollab = false
      ∧ (handleGetComponentDemo co ⟨none, q, cat'⟩).caught =
          some (HErr.validation "componentName"))
    ∧ ((handleGetComponentMetadata co ⟨none, q, cat'⟩).reachedCollab = false
      ∧ (handleGetComponentMetadata co ⟨none, q, cat'⟩).caught =
          some (HErr.validation "componentName")) :=
  ⟨⟨rfl, rfl, rfl⟩, ⟨rfl, rfl⟩, ⟨rfl, rfl⟩, ⟨rfl, rfl⟩⟩

/-- Every branch of `handleGetComponent` returns a single-text envelope. -/
theorem handleGetComponent_env_shape (co : Collab) (p : ToolParams) :
    ∃ s, (handleGetComponent co p).env = mkTextEnv s := by
  unfold handleGetComponent
  repeat' split
  all_goals exact ⟨_, rfl⟩

/-- Every branch of `handleGetComponentDemo` returns a single-text envelope. -/
theorem handleGetComponentDemo_env_shape (co : Collab) (p : ToolParams) :
    ∃ s, (handleGetComponentDemo co p).env = mkTextEnv s := by
  unfold handleGetComponentDemo
  repeat' split
  all_goals exact ⟨_, rfl⟩

/-- Every branch of `handleGetComponentMetadata` returns a single-text
envelope. -/
theorem handleGetComponentMetadata_env_shape (co : Collab) (p : ToolParams) :
    ∃ s, (handleGetComponentMetadata co p).env = mkTextEnv s := by
  unfold handleGetComponentMetadata
  repeat' split
  all_goals exact ⟨_, rfl⟩

/-- Every branch of `handleListComponents` returns a single-text envelope. -/
theorem handleListComponents_env_shape (co : Collab) (p : ToolParams) :
    ∃ s, (handleListComponents co p).env = mkTextEnv s := by
  unfold handleListComponents
  repeat' split
  all_goals exact ⟨_, rfl⟩

/-- Every branch of `handleSearchComponents` returns a single-text
envelope. -/
theorem handleSearchComponents_env_shape (co : Collab) (p : ToolParams) :
    ∃ s, (handleSearchComponents co p).env = mkTextEnv s := by
  unfold handleSearchComponents
  repeat' split
  all_goals exact ⟨_, rfl⟩

/-- C9: for every input and every collaborator behaviour — success, absent
data, or failure — each of the five tool handlers returns a well-formed
envelope: a non-empty content sequence whose items all have type `text`;
failures are wrapped as text rather than escaping as raw thrown values. -/
theorem c9_envelope_invariant (co : Collab) (p : ToolParams) :
    ((handleGetComponent co p).env.content ≠ [] ∧
      ∀ item ∈ (handleGetComponent co p).env.content, item.ctype = "text")
    ∧ ((handleGetComponentDemo co p).env.content ≠ [] ∧
      ∀ item ∈ (handleGetComponentDemo co p).env.content, item.ctype = "text")
    ∧ ((handleListComponents co p).env.content ≠ [] ∧
      ∀ item ∈ (handleListComponents co p).env.content, item.ctype = "text")
    ∧ ((handleGetComponentMetadata co p).env.content ≠ [] ∧
      ∀ item ∈ (handleGetComponentMetadata co p).env.content, item.ctype = "text")
    ∧ ((handleSearchComponents co p).env.content ≠ [] ∧
      ∀ item ∈ (handleSearchComponents co p).env.content, item.ctype = "text") := by
  obtain ⟨s1, h1⟩ := handleGetComponent_env_shape co p
  obtain ⟨s2, h2⟩ := handleGetComponentDemo_env_shape co p
  obtain ⟨s3, h3⟩ := handleListComponents_env_shape co p
  obtain ⟨s4, h4⟩ := handleGetComponentMetadata_env_shape co p
  obtain ⟨s5, h5⟩ := handleSearchComponents_env_shape co p
  refine ⟨⟨?_, ?_⟩, ⟨?_, ?_⟩, ⟨?_, ?_⟩, ⟨?_, ?_⟩, ⟨?_, ?_⟩⟩ <;>
    simp [h1, h2, h3, h4, h5, mkTextEnv]

/-- C10: the startup routine accepts the optional GitHub credential from
the flag or the environment variable (and its absence) without error, and
the served response to any request is identical whatever credential (if
any) was supplied. -/
theorem c10_credential_noninterference :
    (∀ (args args' : List String) (env env' : Option String) (req : Request),
      runServer args env req = runServer args' env' req)
    ∧ parseArgs ["--github-api-key", "tok"] none = some "tok"
    ∧ parseArgs ["-g", "tok"] none = some "tok"
    ∧ parseArgs [] (some "tok") = some "tok"
    ∧ parseArgs [] none = none := by
  refine ⟨?_, rfl, rfl, rfl, rfl⟩
  intro args args' env env' req
  cases req <;> rfl

end ReactBits
